import Mathlib

/-!
Shallow embedding of the TikTok downloader server (src/server/routes.ts).

JavaScript numbers are modelled as rationals (`ℚ`) where fractional values can
arise and as `Int` where the extractor reports integral values (dimensions,
counters, Unix timestamps, sample rates).  An absent JSON field is `none`;
JavaScript truthiness (`x || y` falls through on `undefined`, `0`, `""`,
`false`, `NaN`) is modelled by explicit `truthy…`/`jsOr…` helpers.  The one
place a `NaN` can arise (`filesize_approx * 0.1` when `filesize_approx` is
absent) is modelled by `Option.map`, which keeps `none`; `NaN` and `undefined`
are both falsy at their only use site (`formatFileSize`), so this is faithful.
Date rendering (`toLocaleDateString` with the en-US long format) is modelled in
UTC, which is also the zone in which `new Date("YYYY-MM-DD")` interprets its
argument.
-/

namespace TikTok

/-- JS truthiness of an optional string: `undefined` and `""` are falsy. -/
def truthyStr : Option String → Bool
  | none => false
  | some s => s ≠ ""

/-- JS `a || b` on optional strings: returns `b` (whatever it is) when `a` is falsy. -/
def jsOrStr (a b : Option String) : Option String :=
  if truthyStr a then a else b

/-- JS `a || d` where `d` is a string literal: total result. -/
def jsOrStrD (a : Option String) (d : String) : String :=
  match a with
  | none => d
  | some s => if s = "" then d else s

/-- JS truthiness of an optional rational: `undefined` and `0` are falsy. -/
def truthyQ : Option ℚ → Bool
  | none => false
  | some q => q ≠ 0

/-- JS `a || b` on optional numbers. -/
def jsOrQ (a b : Option ℚ) : Option ℚ :=
  if truthyQ a then a else b

/-- JS `a || d` with a numeric literal default. -/
def jsOrQD (a : Option ℚ) (d : ℚ) : ℚ :=
  match a with
  | none => d
  | some q => if q = 0 then d else q

/-- JS truthiness of an optional integer. -/
def truthyInt : Option Int → Bool
  | none => false
  | some n => n ≠ 0

/-- JS `a || d` with an integer literal default. -/
def jsOrIntD (a : Option Int) (d : Int) : Int :=
  match a with
  | none => d
  | some n => if n = 0 then d else n

/-- JS `a || false` on an optional boolean (`uploader_verified || false`). -/
def jsOrBoolD : Option Bool → Bool
  | some true => true
  | _ => false

/-- Decimal string of a `Nat` padded on the left to two digits (JS `padStart(2, "0")`
applied to the at-most-two-digit second count, and the month/day pieces). -/
def pad2 (n : Nat) : String :=
  if n < 10 then "0" ++ toString n else toString n

/-- JS `Math.floor` on a rational. -/
def jsFloor (q : ℚ) : Int := ⌊q⌋

/-- JS `Math.round`: nearest integer, ties toward positive infinity. -/
def jsRound (q : ℚ) : Int := ⌊q + 1 / 2⌋

/-- JS truncation toward zero (the integer part used by the `%` operator). -/
def truncQ (q : ℚ) : Int :=
  if 0 ≤ q then ⌊q⌋ else ⌈q⌉

/-- JS `a % b`: remainder with the sign of the dividend. -/
def jsModQ (a b : ℚ) : ℚ :=
  a - (truncQ (a / b) : ℚ) * b

/-- JS `toFixed(2)` on a rational: round to the nearest hundredth (ties up) and
render with exactly two decimal places. -/
def toFixed2 (q : ℚ) : String :=
  let n : Int := ⌊q * 100 + 1 / 2⌋
  let sign := if n < 0 then "-" else ""
  let m := n.natAbs
  sign ++ toString (m / 100) ++ "." ++ pad2 (m % 100)

/-- JS `toFixed(1)` on a rational: round to the nearest tenth (ties up) and
render with exactly one decimal place. -/
def toFixed1 (q : ℚ) : String :=
  let n : Int := ⌊q * 10 + 1 / 2⌋
  let sign := if n < 0 then "-" else ""
  let m := n.natAbs
  sign ++ toString (m / 10) ++ "." ++ toString (m % 10)

/-- `formatDuration` from routes.ts: falsy seconds give `"00:00"`, otherwise
`Math.floor(seconds / 60)` then `Math.floor(seconds % 60)` rendered `M:SS`
with the seconds padded to two digits. -/
def formatDuration (seconds : Option ℚ) : String :=
  match seconds with
  | none => "00:00"
  | some s =>
    if s = 0 then "00:00"
    else
      let mins := jsFloor (s / 60)
      let secs := jsFloor (jsModQ s 60)
      let secStr := toString secs
      toString mins ++ ":" ++ (if secStr.length < 2 then "0" ++ secStr else secStr)

/-- `formatFileSize` from routes.ts: falsy byte count gives `"N/A"`, otherwise
divide by 1024 twice and render with two decimal places followed by " MB". -/
def formatFileSize (bytes : Option ℚ) : String :=
  match bytes with
  | none => "N/A"
  | some b => if b = 0 then "N/A" else toFixed2 (b / 1024 / 1024) ++ " MB"

/-- Character class of the hashtag regex `/#[\wÀ-ſ]+/`:
ASCII word characters or the Unicode range U+00C0 to U+017F. -/
def isHashtagChar (c : Char) : Bool :=
  c.isAlphanum || c = Char.ofNat 95 || (0xC0 ≤ c.toNat && c.toNat ≤ 0x17F)

/-- Global matching of `/#[\wÀ-ſ]+/g` with the leading marker
stripped.  The accumulator is `some run` (reversed characters matched so far)
while scanning just after a `#`, `none` otherwise; a maximal nonempty run is
emitted as one hashtag. -/
def tagsAux : List Char → Option (List Char) → List String
  | [], none => []
  | [], some run => if run = [] then [] else [String.mk run.reverse]
  | c :: rest, none =>
    if c = '#' then tagsAux rest (some []) else tagsAux rest none
  | c :: rest, some run =>
    if isHashtagChar c then tagsAux rest (some (c :: run))
    else if run = [] then
      if c = '#' then tagsAux rest (some []) else tagsAux rest none
    else
      String.mk run.reverse ::
        (if c = '#' then tagsAux rest (some []) else tagsAux rest none)

/-- `extractHashtags` from routes.ts: empty (falsy) text gives `[]`, otherwise
all matches of the hashtag regex with the leading `#` stripped, in order. -/
def extractHashtags (text : String) : List String :=
  if text = "" then [] else tagsAux text.data none

/-- One proleptic-Gregorian leap-year test (what JS `Date` uses). -/
def isLeap (y : Int) : Bool :=
  (y % 4 = 0 && y % 100 ≠ 0) || y % 400 = 0

/-- Length of a month in the proleptic Gregorian calendar. -/
def daysInMonth (y : Int) (m : Nat) : Nat :=
  if m = 2 then (if isLeap y then 29 else 28)
  else if m = 4 ∨ m = 6 ∨ m = 9 ∨ m = 11 then 30
  else 31

/-- Days since the Unix epoch of a calendar date (civil-to-days). -/
def daysFromCivil (y : Int) (m d : Nat) : Int :=
  let y2 : Int := if m ≤ 2 then y - 1 else y
  let era : Int := (if 0 ≤ y2 then y2 else y2 - 399) / 400
  let yoe : Nat := (y2 - era * 400).toNat
  let mp : Nat := if 2 < m then m - 3 else m + 9
  let doy : Nat := (153 * mp + 2) / 5 + d - 1
  let doe : Nat := yoe * 365 + yoe / 4 - yoe / 100 + doy
  era * 146097 + (doe : Int) - 719468

/-- Calendar date (year, month, day) of a count of days since the Unix epoch. -/
def civilFromDays (z : Int) : Int × Nat × Nat :=
  let z2 : Int := z + 719468
  let era : Int := (if 0 ≤ z2 then z2 else z2 - 146096) / 146097
  let doe : Nat := (z2 - era * 146097).toNat
  let yoe : Nat := (doe - doe / 1460 + doe / 36524 - doe / 146096) / 365
  let y : Int := (yoe : Int) + era * 400
  let doy : Nat := doe - (365 * yoe + yoe / 4 - yoe / 100)
  let mp : Nat := (5 * doy + 2) / 153
  let d : Nat := doy - (153 * mp + 2) / 5 + 1
  let m : Nat := if mp < 10 then mp + 3 else mp - 9
  (if m ≤ 2 then y + 1 else y, m, d)

/-- English month names for the en-US long format. -/
def monthLong (m : Nat) : String :=
  (["January", "February", "March", "April", "May", "June", "July",
    "August", "September", "October", "November", "December"].getD (m - 1) "")

/-- JS `toLocaleDateString` with the en-US long format (year numeric, month
long, day numeric) of an epoch-millisecond instant, rendered in UTC. -/
def renderDate (ms : Int) : String :=
  let c := civilFromDays (Int.fdiv ms 86400000)
  monthLong c.2.1 ++ " " ++ toString c.2.2 ++ ", " ++ toString c.1

/-- The 8-digit test of the upload-date regex. -/
def isEightDigits (s : String) : Bool :=
  s.length = 8 && s.data.all Char.isDigit

/-- Numeric value of an ASCII digit string. -/
def digitsToNat (cs : List Char) : Nat :=
  cs.foldl (fun a c => a * 10 + (c.toNat - 48)) 0

/-- A JS `Date` object: `some ms` when valid, `none` for an Invalid Date. -/
def JsDate := Option Int
deriving DecidableEq

/-- JS `new Date` on the dashed recombination of an 8-digit `upload_date`:
a valid UTC-midnight instant when the month and day form a real calendar
date, otherwise an Invalid Date. -/
def parseUploadDate (s : String) : JsDate :=
  let y : Nat := digitsToNat (s.data.take 4)
  let m : Nat := digitsToNat ((s.data.drop 4).take 2)
  let d : Nat := digitsToNat ((s.data.drop 6).take 2)
  if 1 ≤ m ∧ m ≤ 12 ∧ 1 ≤ d ∧ d ≤ daysInMonth (y : Int) m then
    some (daysFromCivil (y : Int) m d * 86400000)
  else
    none

/-- JS `new Date` for a numeric millisecond argument: valid iff within
8.64e15 milliseconds of the epoch in absolute value. -/
def dateFromMs (ms : Int) : JsDate :=
  if ms.natAbs ≤ 8640000000000000 then some ms else none

/-- `formatDate` from routes.ts.  The outer `Option` is the JS variable
`date` (`none` meaning still null); the inner one is validity of the `Date`
object.  A `Date` object is truthy even when invalid, so the timestamp
fallback runs only when the 8-digit branch was never entered. -/
def formatDate (uploadDate : Option String) (timestamp : Option Int) : String :=
  let d1 : Option JsDate :=
    match uploadDate with
    | some s => if isEightDigits s then some (parseUploadDate s) else none
    | none => none
  let d2 : Option JsDate :=
    match d1 with
    | some d => some d
    | none =>
      match timestamp with
      | some ts => if ts = 0 then none else some (dateFromMs (ts * 1000))
      | none => none
  match d2 with
  | some (some ms) => renderDate ms
  | _ => "Unknown"

/-- Hexadecimal digit, uppercase. -/
def hexChar (n : Nat) : Char :=
  if n < 10 then Char.ofNat (48 + n) else Char.ofNat (55 + n)

/-- UTF-8 bytes of a Unicode scalar value. -/
def utf8Bytes (n : Nat) : List Nat :=
  if n < 0x80 then [n]
  else if n < 0x800 then [0xC0 + n / 64, 0x80 + n % 64]
  else if n < 0x10000 then [0xE0 + n / 4096, 0x80 + (n / 64) % 64, 0x80 + n % 64]
  else [0xF0 + n / 262144, 0x80 + (n / 4096) % 64, 0x80 + (n / 64) % 64, 0x80 + n % 64]

/-- Characters the JS component encoder leaves unescaped. -/
def isUriUnreserved (c : Char) : Bool :=
  c.isAlphanum || [45, 95, 46, 33, 126, 42, 39, 40, 41].contains c.toNat

/-- JS `encodeURIComponent`: unreserved characters kept, every other
character percent-encoded byte by byte in UTF-8. -/
def encodeURIComponent (s : String) : String :=
  String.join (s.data.map (fun c =>
    if isUriUnreserved c then String.mk [c]
    else String.join ((utf8Bytes c.toNat).map (fun b =>
      "%" ++ String.mk [hexChar (b / 16), hexChar (b % 16)]))))

/-- The loosely structured JSON document produced by the extractor
(`videoInfo` in routes.ts); every field may be absent. -/
structure VideoInfo where
  title : Option String := none
  description : Option String := none
  thumbnail : Option String := none
  uploader : Option String := none
  uploader_id : Option String := none
  creator : Option String := none
  uploader_url : Option String := none
  channel_url : Option String := none
  uploader_verified : Option Bool := none
  duration : Option ℚ := none
  filesize : Option ℚ := none
  filesize_approx : Option ℚ := none
  audio_filesize : Option ℚ := none
  width : Option Int := none
  height : Option Int := none
  ext : Option String := none
  vcodec : Option String := none
  fps : Option ℚ := none
  tbr : Option ℚ := none
  acodec : Option String := none
  audio_channels : Option Int := none
  asr : Option Int := none
  view_count : Option Int := none
  like_count : Option Int := none
  comment_count : Option Int := none
  repost_count : Option Int := none
  bookmark_count : Option Int := none
  track : Option String := none
  alt_title : Option String := none
  artist : Option String := none
  upload_date : Option String := none
  timestamp : Option Int := none
  id : Option String := none
  display_id : Option String := none
deriving DecidableEq

/-- The `metadata` sub-object of the response document. -/
structure VideoMetadata where
  duration : String
  videoSize : String
  audioSize : String
  resolution : String
  format : String
  codec : String
  fps : ℚ
  bitrate : String
  width : Int
  height : Int
  audioCodec : String
  audioChannels : Int
  audioSampleRate : String
deriving DecidableEq

/-- The `creator` sub-object.  `avatar` is the one field of the whole
document whose fallback chain (`uploader_url || channel_url`) does not end
in a literal, so its type remains optional. -/
structure CreatorInfo where
  username : String
  nickname : String
  avatar : Option String
  verified : Bool
deriving DecidableEq

/-- The `stats` sub-object. -/
structure VideoStats where
  views : Int
  likes : Int
  comments : Int
  shares : Int
  favorites : Int
deriving DecidableEq

/-- The `audio` sub-object. -/
structure AudioInfo where
  title : String
  author : String
deriving DecidableEq

/-- The derived document (`responseData` in routes.ts). -/
structure VideoInfoResponse where
  videoUrl : String
  audioUrl : String
  thumbnail : String
  title : String
  description : String
  metadata : VideoMetadata
  creator : CreatorInfo
  stats : VideoStats
  audio : AudioInfo
  hashtags : List String
  uploadDate : String
  videoId : String
deriving DecidableEq

/-- Construction of `responseData` from the parsed extractor output, field
by field as written in routes.ts. -/
def responseData (url : String) (vi : VideoInfo) : VideoInfoResponse where
  videoUrl := "/api/tiktok/download/video?url=" ++ encodeURIComponent url
  audioUrl := "/api/tiktok/download/audio?url=" ++ encodeURIComponent url
  thumbnail := jsOrStrD vi.thumbnail "https://picsum.photos/seed/tiktok/1280/720"
  title := jsOrStrD (jsOrStr vi.title vi.description) "TikTok Video"
  description := jsOrStrD (jsOrStr vi.description vi.title) "No description available"
  metadata :=
    { duration := formatDuration vi.duration
      videoSize := formatFileSize (jsOrQ vi.filesize vi.filesize_approx)
      audioSize := formatFileSize
        (jsOrQ vi.audio_filesize (vi.filesize_approx.map (fun q => q * (1 / 10))))
      resolution := toString (jsOrIntD vi.width 1080) ++ "x" ++ toString (jsOrIntD vi.height 1920)
      format := jsOrStrD (vi.ext.map String.toUpper) "MP4"
      codec := jsOrStrD vi.vcodec "H.264"
      fps := jsOrQD vi.fps 30
      bitrate :=
        match vi.tbr with
        | some t => if t = 0 then "N/A" else toString (jsRound t) ++ " kbps"
        | none => "N/A"
      width := jsOrIntD vi.width 1080
      height := jsOrIntD vi.height 1920
      audioCodec := jsOrStrD vi.acodec "AAC"
      audioChannels := jsOrIntD vi.audio_channels 2
      audioSampleRate :=
        match vi.asr with
        | some a => if a = 0 then "44.1 kHz" else toFixed1 ((a : ℚ) / 1000) ++ " kHz"
        | none => "44.1 kHz" }
  creator :=
    { username := jsOrStrD (jsOrStr vi.uploader_id vi.uploader) "Unknown"
      nickname := jsOrStrD (jsOrStr vi.uploader vi.creator) "TikTok User"
      avatar := jsOrStr vi.uploader_url vi.channel_url
      verified := jsOrBoolD vi.uploader_verified }
  stats :=
    { views := jsOrIntD vi.view_count 0
      likes := jsOrIntD vi.like_count 0
      comments := jsOrIntD vi.comment_count 0
      shares := jsOrIntD vi.repost_count 0
      favorites := jsOrIntD vi.bookmark_count 0 }
  audio :=
    { title := jsOrStrD (jsOrStr vi.track vi.alt_title) "Original Sound"
      author := jsOrStrD (jsOrStr vi.artist vi.uploader) "Unknown Artist" }
  hashtags := extractHashtags (jsOrStrD (jsOrStr vi.description vi.title) "")
  uploadDate := formatDate vi.upload_date vi.timestamp
  videoId := jsOrStrD (jsOrStr vi.id vi.display_id) "unknown"

/-- Modelled from the spec: the URL Validator (`validateTikTokUrl` in
src/client/src/lib/validators, not under src/) is a zod schema; a failed
parse raises an error carrying a nonempty list of validation messages, of
which the handler surfaces the first. -/
structure ZodError where
  errors : List String
deriving DecidableEq

/-- Reply of the metadata endpoint: an error JSON body with a message, or
the derived document. -/
inductive InfoReply where
  | json (status : Nat) (message : String)
  | payload (resp : VideoInfoResponse)
deriving DecidableEq

/-- The `POST /api/tiktok/info` handler.  `parse` is the outcome of
`tiktokInfoSchema.parse(req.body)`; `extract` is the extractor invocation
(`none` for any non-zero exit or JSON parse failure).  The second component
reports whether the extractor subprocess was invoked. -/
def infoHandler (parse : Except ZodError String)
    (extract : String → Option VideoInfo) : InfoReply × Bool :=
  match parse with
  | .error e => (InfoReply.json 400 ((e.errors.head?).getD ""), false)
  | .ok url =>
    match extract url with
    | none => (InfoReply.json 500 "Failed to process TikTok URL", true)
    | some vi => (InfoReply.payload (responseData url vi), true)

/-- Extractor options chosen by the download handler: the ternary on
`type === "video"` sends every other type string to the audio branch. -/
def ytDlpOptions (ty : String) : List String :=
  if ty = "video" then ["--format", "best[ext=mp4]", "--force-overwrites"]
  else ["--extract-audio", "--audio-format", "mp3", "--force-overwrites"]

/-- Output path of the download handler: `path.join(cwd, "temp", ...)` with
extension `mp4` exactly when the type is `"video"`, else `mp3`. -/
def outputFileFor (cwd ty : String) (now : Nat) : String :=
  cwd ++ "/temp/tiktok-" ++ ty ++ "-" ++ toString now ++ "." ++
    (if ty = "video" then "mp4" else "mp3")

/-- Observable outcome of one `GET /api/tiktok/download/:type` request:
status, JSON message if any, the two content headers if set, the file
streamed if any, and the argument vector passed to the spawned extractor
(if one was spawned at all). -/
structure DownloadResult where
  status : Nat
  message : Option String
  contentType : Option String
  contentDisposition : Option String
  streamedFile : Option String
  spawnedArgs : Option (List String)
deriving DecidableEq

/-- The `GET /api/tiktok/download/:type` handler.  `url` is the query
parameter (`none` when absent), `now` is `Date.now()`, and `exitCode` is the
code the child process closes with (`none` models a null code from a
signal).  Directory creation and the file stream are assumed to succeed;
only the exit-code path distinguishes the claims.  Headers are set after
the close promise resolves, so a rejection reaches the catch with both
headers unset and nothing streamed. -/
def downloadHandler (cwd ty : String) (url : Option String) (now : Nat)
    (exitCode : Option Int) : DownloadResult :=
  if truthyStr url = false then
    { status := 400, message := some "URL is required", contentType := none,
      contentDisposition := none, streamedFile := none, spawnedArgs := none }
  else
    let u := url.getD ""
    let out := outputFileFor cwd ty now
    let args := ytDlpOptions ty ++ ["-o", out, u]
    if exitCode = some 0 then
      { status := 200, message := none,
        contentType := some (if ty = "video" then "video/mp4" else "audio/mpeg"),
        contentDisposition := some ("attachment; filename=\"tiktok-" ++ ty ++ "-" ++
          toString now ++ "." ++ (if ty = "video" then "mp4" else "mp3") ++ "\""),
        streamedFile := some out, spawnedArgs := some args }
    else
      { status := 500, message := some "Failed to download content",
        contentType := none, contentDisposition := none,
        streamedFile := none, spawnedArgs := some args }

/-- Extractor output with every optional field absent. -/
def viEmpty : VideoInfo := {}

/-- Extractor output whose only present field is a view count of zero. -/
def viZeroViews : VideoInfo := { view_count := some 0 }

/-- Extractor output reporting a width but no height. -/
def viWidthOnly : VideoInfo := { width := some 720 }

/-- C1 counterexample: the claim that every field of the response is a
defined, non-null value fails for `creator.avatar`.  Its fallback chain
`uploader_url || channel_url` ends in another optional field, so the
document built from an extractor output with both fields absent carries an
undefined avatar. -/
theorem C1_claim_cex :
    ¬ ∀ (url : String) (vi : VideoInfo),
      ((responseData url vi).creator.avatar).isSome = true :=
  fun h => absurd (h "u" viEmpty) (by decide)

/-- C1 (amended): every field of the response document except
`creator.avatar` has a fallback chain ending in a literal and is therefore
always defined (this is enforced by the total types of `VideoInfoResponse`);
`creator.avatar` is undefined exactly when `uploader_url` is falsy and
`channel_url` is absent. -/
theorem C1_amended : ∀ (url : String) (vi : VideoInfo),
    (responseData url vi).creator.avatar = none ↔
      truthyStr vi.uploader_url = false ∧ vi.channel_url = none := by
  intro url vi
  cases hu : vi.uploader_url with
  | none => simp [responseData, jsOrStr, truthyStr, hu]
  | some s =>
    by_cases hs : s = ""
    · simp [responseData, jsOrStr, truthyStr, hu, hs]
    · simp [responseData, jsOrStr, truthyStr, hu, hs]

/-- C2: when the request body does not pass the URL validator (the zod
parse raises), the metadata handler answers 400 with the first validation
message and the extractor subprocess is never invoked (the `Bool` component
of `infoHandler`, which records an extractor invocation, is `false`). -/
theorem C2_invalid_url_rejected_before_extractor :
    ∀ (e : ZodError) (extract : String → Option VideoInfo),
      infoHandler (Except.error e) extract =
        (InfoReply.json 400 ((e.errors.head?).getD ""), false) :=
  fun _ _ => rfl

/-- C3: a missing `url` query parameter yields 400 "URL is required" with
no subprocess spawned; a non-zero (or null) extractor exit code yields 500
"Failed to download content" with neither content header set and no file
streamed; only exit code 0 produces the 200 response streaming the output
file. -/
theorem C3_download_error_paths :
    (∀ cwd ty now code, downloadHandler cwd ty none now code =
      { status := 400, message := some "URL is required", contentType := none,
        contentDisposition := none, streamedFile := none, spawnedArgs := none })
    ∧ (∀ cwd ty u now code, truthyStr (some u) = true → code ≠ some 0 →
        downloadHandler cwd ty (some u) now code =
          { status := 500, message := some "Failed to download content",
            contentType := none, contentDisposition := none, streamedFile := none,
            spawnedArgs := some (ytDlpOptions ty ++ ["-o", outputFileFor cwd ty now, u]) })
    ∧ (∀ cwd ty u now, truthyStr (some u) = true →
        (downloadHandler cwd ty (some u) now (some 0)).status = 200 ∧
        (downloadHandler cwd ty (some u) now (some 0)).streamedFile =
          some (outputFileFor cwd ty now)) := by
  refine ⟨fun cwd ty now code => rfl, fun cwd ty u now code h hc => ?_, fun cwd ty u now h => ?_⟩
  · simp [downloadHandler, h, hc]
  · simp [downloadHandler, h]

/-- Witness for C3 at a concrete failing download: exit code 1 on a valid
video request gives the fixed 500 body with no headers and no stream. -/
theorem C3_download_error_paths_witness :
    downloadHandler "." "video" (some "x") 7 (some 1) =
      { status := 500, message := some "Failed to download content",
        contentType := none, contentDisposition := none, streamedFile := none,
        spawnedArgs := some (ytDlpOptions "video" ++ ["-o", outputFileFor "." "video" 7, "x"]) } :=
  C3_download_error_paths.2.1 "." "video" "x" 7 (some 1) (by decide) (by decide)

/-- C4: any `:type` other than the literal `"video"` falls into the audio
branch — mp3 output extension, the audio option vector, and the
`audio/mpeg` content type — while `"video"` alone selects the mp4 branch. -/
theorem C4_non_video_takes_audio_branch :
    (∀ ty, ty ≠ "video" →
      ytDlpOptions ty = ["--extract-audio", "--audio-format", "mp3", "--force-overwrites"]
      ∧ ∀ cwd now, outputFileFor cwd ty now =
          cwd ++ "/temp/tiktok-" ++ ty ++ "-" ++ toString now ++ "." ++ "mp3")
    ∧ (∀ cwd ty u now, ty ≠ "video" → truthyStr (some u) = true →
        (downloadHandler cwd ty (some u) now (some 0)).contentType = some "audio/mpeg")
    ∧ ytDlpOptions "video" = ["--format", "best[ext=mp4]", "--force-overwrites"]
    ∧ (∀ cwd u now, truthyStr (some u) = true →
        (downloadHandler cwd "video" (some u) now (some 0)).contentType = some "video/mp4"
        ∧ outputFileFor cwd "video" now =
            cwd ++ "/temp/tiktok-" ++ "video" ++ "-" ++ toString now ++ "." ++ "mp4") := by
  refine ⟨fun ty hty => ⟨?_, fun cwd now => ?_⟩, fun cwd ty u now hty h => ?_, rfl,
    fun cwd u now h => ⟨?_, rfl⟩⟩
  · simp [ytDlpOptions, hty]
  · simp [outputFileFor, hty]
  · simp [downloadHandler, h, hty]
  · simp [downloadHandler, h]

/-- Witness for C4 at the unrecognized type `"gif"`: the audio branch is
taken. -/
theorem C4_non_video_takes_audio_branch_witness :
    ytDlpOptions "gif" = ["--extract-audio", "--audio-format", "mp3", "--force-overwrites"]
    ∧ (downloadHandler "." "gif" (some "x") 7 (some 0)).contentType = some "audio/mpeg" :=
  ⟨(C4_non_video_takes_audio_branch.1 "gif" (by decide)).1,
   C4_non_video_takes_audio_branch.2.1 "." "gif" "x" 7 (by decide) (by decide)⟩

/-- C5: `formatDate` prefers an 8-digit `upload_date` (so
`"20240115"` renders as January 15, 2024 whatever the timestamp is); a
non-8-digit or absent `upload_date` behaves as if absent, falling back to
the Unix timestamp converted to milliseconds (1700000000 seconds renders as
the en-US long form of 1700000000000 ms, November 14, 2023 in UTC); with
neither present (or a zero timestamp) the result is `"Unknown"`. -/
theorem C5_upload_date_formatting :
    (∀ ts, formatDate (some "20240115") ts = "January 15, 2024")
    ∧ formatDate none (some 1700000000) = renderDate (1700000000 * 1000)
    ∧ formatDate none (some 1700000000) = "November 14, 2023"
    ∧ (∀ s ts, isEightDigits s = false → formatDate (some s) ts = formatDate none ts)
    ∧ (∀ ts : Int, ts ≠ 0 → formatDate none (some ts) =
        (match dateFromMs (ts * 1000) with
         | some ms => renderDate ms
         | none => "Unknown"))
    ∧ formatDate none none = "Unknown"
    ∧ formatDate none (some 0) = "Unknown" := by
  refine ⟨fun ts => rfl, by decide, by decide, fun s ts h => ?_, fun ts h => ?_, rfl, rfl⟩
  · simp [formatDate, h]
  · simp only [formatDate, h, if_neg h]
    cases hd : dateFromMs (ts * 1000) <;> simp [hd]

/-- Witness for C5: a malformed `upload_date` falls through to the
timestamp exactly as if it were absent. -/
theorem C5_upload_date_formatting_witness :
    formatDate (some "20ab0115") (some 1700000000) = formatDate none (some 1700000000) :=
  C5_upload_date_formatting.2.2.2.1 "20ab0115" (some 1700000000) (by decide)

/-- C6: hashtags are the in-order, non-deduplicated maximal runs of word
characters or U+00C0–U+017F letters following a `#`, with the marker
stripped; the source text is the description falling back to the title and
then to the empty string, which yields no tags.  The spec example
"Check this #fun #2024tok out" gives `["fun", "2024tok"]`. -/
theorem C6_hashtag_extraction :
    extractHashtags "Check this #fun #2024tok out" = ["fun", "2024tok"]
    ∧ extractHashtags "#fun #fun" = ["fun", "fun"]
    ∧ extractHashtags "ok #café!" = ["café"]
    ∧ extractHashtags "" = []
    ∧ (∀ url vi, (responseData url vi).hashtags =
        extractHashtags (jsOrStrD (jsOrStr vi.description vi.title) ""))
    ∧ (∀ url vi, vi.description = none → vi.title = none →
        (responseData url vi).hashtags = []) := by
  refine ⟨by decide, by decide, by decide, by decide, fun url vi => rfl, fun url vi h1 h2 => ?_⟩
  simp [responseData, jsOrStr, jsOrStrD, truthyStr, extractHashtags, h1, h2]

/-- Witness for C6: with neither description nor title present the
hashtag list of the document is empty. -/
theorem C6_hashtag_extraction_witness :
    (responseData "u" viEmpty).hashtags = [] :=
  C6_hashtag_extraction.2.2.2.2.2 "u" viEmpty rfl rfl

/-- C7 counterexample: a counter the extractor reports as `0` is NOT
distinguishable in the response from an absent counter — `|| 0` collapses
both to `0`, so the two documents are equal even though the inputs differ
exactly as the claim describes. -/
theorem C7_claim_cex :
    responseData "u" viZeroViews = responseData "u" viEmpty
    ∧ viZeroViews.view_count = some 0
    ∧ viEmpty.view_count = none :=
  ⟨by decide, rfl, rfl⟩

/-- C7 (amended): every numeric-derived field defaults to its literal when
the underlying extractor field is missing — each stats counter to `0`,
formatted byte sizes to `"N/A"`, the duration to `"00:00"` — but an
explicit zero counter produces the same response as an absent one. -/
theorem C7_amended :
    (∀ url vi, vi.view_count = none → (responseData url vi).stats.views = 0)
    ∧ (∀ url vi, vi.like_count = none → (responseData url vi).stats.likes = 0)
    ∧ (∀ url vi, vi.comment_count = none → (responseData url vi).stats.comments = 0)
    ∧ (∀ url vi, vi.repost_count = none → (responseData url vi).stats.shares = 0)
    ∧ (∀ url vi, vi.bookmark_count = none → (responseData url vi).stats.favorites = 0)
    ∧ (∀ url vi, vi.filesize = none → vi.filesize_approx = none →
        (responseData url vi).metadata.videoSize = "N/A")
    ∧ (∀ url vi, vi.audio_filesize = none → vi.filesize_approx = none →
        (responseData url vi).metadata.audioSize = "N/A")
    ∧ (∀ url vi, vi.duration = none → (responseData url vi).metadata.duration = "00:00")
    ∧ (∀ (url : String) (vi : VideoInfo),
        responseData url { vi with view_count := some 0 } =
        responseData url { vi with view_count := none }) := by
  refine ⟨fun url vi h => ?_, fun url vi h => ?_, fun url vi h => ?_, fun url vi h => ?_,
    fun url vi h => ?_, fun url vi h1 h2 => ?_, fun url vi h1 h2 => ?_,
    fun url vi h => ?_, fun url vi => ?_⟩
  · simp [responseData, jsOrIntD, h]
  · simp [responseData, jsOrIntD, h]
  · simp [responseData, jsOrIntD, h]
  · simp [responseData, jsOrIntD, h]
  · simp [responseData, jsOrIntD, h]
  · simp [responseData, jsOrQ, truthyQ, formatFileSize, h1, h2]
  · simp [responseData, jsOrQ, truthyQ, formatFileSize, h1, h2]
  · simp [responseData, formatDuration, h]
  · simp [responseData, jsOrIntD]

/-- Witness for C7 (amended) on the all-absent extractor output. -/
theorem C7_amended_witness :
    (responseData "u" viEmpty).stats.views = 0
    ∧ (responseData "u" viEmpty).metadata.videoSize = "N/A"
    ∧ (responseData "u" viEmpty).metadata.duration = "00:00" :=
  ⟨C7_amended.1 "u" viEmpty rfl,
   (C7_amended.2.2.2.2.2.1) "u" viEmpty rfl rfl,
   (C7_amended.2.2.2.2.2.2.2.1) "u" viEmpty rfl⟩

/-- C8: a present, non-zero byte count renders as the count divided by 1024
twice with exactly two decimals and " MB"; an absent count renders "N/A"
(and so does an explicit zero); `metadata.videoSize` applies this to
`filesize` falling back to `filesize_approx`, and `metadata.audioSize` to
`audio_filesize` falling back, when that is not truthily reported, to one
tenth of `filesize_approx`. -/
theorem C8_file_size_formatting :
    (∀ b : ℚ, b ≠ 0 → formatFileSize (some b) = toFixed2 (b / 1024 / 1024) ++ " MB")
    ∧ formatFileSize none = "N/A"
    ∧ formatFileSize (some 0) = "N/A"
    ∧ formatFileSize (some 1048576) = "1.00 MB"
    ∧ formatFileSize (some 1572864) = "1.50 MB"
    ∧ (∀ url vi, (responseData url vi).metadata.videoSize =
        formatFileSize (jsOrQ vi.filesize vi.filesize_approx))
    ∧ (∀ url vi, truthyQ vi.audio_filesize = false →
        (responseData url vi).metadata.audioSize =
          formatFileSize (vi.filesize_approx.map (fun q => q * (1 / 10))))
    ∧ (∀ url vi, truthyQ vi.audio_filesize = true →
        (responseData url vi).metadata.audioSize = formatFileSize vi.audio_filesize)
    ∧ (responseData "u" { viEmpty with filesize_approx := some 10485760 }).metadata.audioSize
        = "1.00 MB" := by
  refine ⟨fun b h => ?_, rfl, rfl, ?_, ?_, fun url vi => rfl, fun url vi h => ?_,
    fun url vi h => ?_, ?_⟩
  · simp [formatFileSize, h]
  · norm_num [formatFileSize, toFixed2, pad2]
    rfl
  · norm_num [formatFileSize, toFixed2, pad2]
    rfl
  · simp [responseData, jsOrQ, h]
  · simp [responseData, jsOrQ, h]
  · norm_num [responseData, viEmpty, jsOrQ, truthyQ, formatFileSize, toFixed2, pad2]
    rfl

/-- Witness for C8: the rendering formula at 1048576 bytes. -/
theorem C8_file_size_formatting_witness :
    formatFileSize (some 1048576) = toFixed2 ((1048576 : ℚ) / 1024 / 1024) ++ " MB" :=
  C8_file_size_formatting.1 1048576 (by norm_num)

/-- C9 counterexample: the claim that the resolution string defaults to
`"1080x1920"` whenever either dimension is missing fails when only one is
absent — a width of 720 with no height renders `"720x1920"`. -/
theorem C9_claim_cex :
    ¬ ∀ (url : String) (vi : VideoInfo),
      (vi.width = none ∨ vi.height = none) →
        (responseData url vi).metadata.resolution = "1080x1920" :=
  fun h => absurd (h "u" viWidthOnly (Or.inr rfl)) (by decide)

/-- C9 (amended): the resolution string is built from the two dimensions
with each defaulting independently — width to 1080 and height to 1920 — so
it is `"1080x1920"` exactly when both are missing (or falsy). -/
theorem C9_amended : ∀ (url : String) (vi : VideoInfo),
    (responseData url vi).metadata.resolution =
      toString (jsOrIntD vi.width 1080) ++ "x" ++ toString (jsOrIntD vi.height 1920)
    ∧ (vi.width = none → vi.height = none →
        (responseData url vi).metadata.resolution = "1080x1920") := by
  intro url vi
  refine ⟨rfl, fun h1 h2 => ?_⟩
  simp [responseData, jsOrIntD, h1, h2]
  rfl

/-- Witness for C9 (amended): both dimensions missing give the portrait
default. -/
theorem C9_amended_witness :
    (responseData "u" viEmpty).metadata.resolution = "1080x1920" :=
  (C9_amended "u" viEmpty).2 rfl rfl

/-- C10: an 8-digit `upload_date` that is not a real calendar date (such as
"20241399") produces an Invalid Date object, which is still truthy, so the
timestamp fallback is skipped and the result is `"Unknown"` no matter what
timestamp is present; in general the timestamp branch runs only when the
8-digit test never matched. -/
theorem C10_invalid_eight_digit_date :
    (∀ ts, formatDate (some "20241399") ts = "Unknown")
    ∧ (∀ s ts, isEightDigits s = true → parseUploadDate s = none →
        formatDate (some s) ts = "Unknown") := by
  refine ⟨fun ts => rfl, fun s ts h1 h2 => ?_⟩
  simp [formatDate, h1, h2]

/-- Witness for C10 at "20241399" with a valid non-zero timestamp. -/
theorem C10_invalid_eight_digit_date_witness :
    formatDate (some "20241399") (some 1700000000) = "Unknown" :=
  C10_invalid_eight_digit_date.2 "20241399" (some 1700000000) (by decide) (by decide)
